import Mathlib

/-!
Shallow embedding of the pension-deposit tools in `finanace_tools.py`
(fraud evaluation, recurring-deposit scheduling) and of the connection
discipline of `init_database` / `get_db_connection` in both tool files.

Modelling conventions:
* SQL tables are Lean lists of row structures; `INSERT` appends,
  `UPDATE ... WHERE` maps over the list, `SELECT ... fetchone` is `List.find?`.
* Python floats are modelled as rationals; timestamps are naturals
  counting seconds (one day = 86400, seven days = 604800), matching the
  chronological ISO-string comparisons of the source.
* The numeric interpolation inside indicator description strings
  (for example "Amount $800.00 deviates ...") is serialization detail and is
  elided: descriptions are the fixed template texts.
* A Python exception is an `Except.error` carrying the message; the
  unguarded division in `_check_fraud_internal` line 383 surfaces as a
  ZeroDivisionError when the matched monthly amount is zero.
* `uuid.uuid4()`-derived identifiers are passed in as explicit `freshSid`
  / `freshTid` arguments, and the possibility of a storage exception in
  the try block of `_schedule_recurring_deposit_internal` is an oracle
  argument `fail : Option (Nat × String)`: `some (k, m)` means the
  (k+1)-th storage operation of the try block raises with message `m`.
-/

deriving instance DecidableEq for Except

set_option allowUnsafeReducibility true

attribute [local semireducible] Rat.sub Rat.add Rat.mul Rat.div Rat.inv Rat.neg

namespace FinanceTools

/-- Row of the `customers` table (columns used by the core logic). -/
structure Customer where
  customer_id : String
  name : String
  account_number : String
deriving DecidableEq, Inhabited

/-- Row of the `pension_details` table. -/
structure Pension where
  pension_id : String
  customer_id : String
  pension_type : String
  monthly_amount : ℚ
  status : String
  bank_account : String
deriving DecidableEq, Inhabited

/-- Row of the `transactions` table. -/
structure Txn where
  transaction_id : String
  customer_id : String
  pension_id : String
  amount : ℚ
  transaction_date : Nat
  transaction_type : String
  status : String
  is_fraudulent : Bool
  scheduled_date : Nat
deriving DecidableEq, Inhabited

/-- Row of the `fraud_indicators` table. -/
structure FraudIndicatorRow where
  customer_id : String
  indicator_type : String
  description : String
  severity : String
  detected_at : Nat
deriving DecidableEq, Inhabited

/-- Row of the `scheduled_deposits` table. -/
structure Schedule where
  schedule_id : String
  customer_id : String
  pension_id : String
  amount : ℚ
  frequency : String
  next_deposit_date : Nat
  status : String
deriving DecidableEq, Inhabited

/-- The SQLite database state: one list per table. -/
structure DB where
  customers : List Customer
  pensions : List Pension
  transactions : List Txn
  fraud_indicators : List FraudIndicatorRow
  scheduled_deposits : List Schedule
deriving DecidableEq, Inhabited

/-- One entry of the `fraud_indicators` list inside a fraud verdict:
a dict with keys type, description, severity. -/
structure FraudIndicator where
  type : String
  description : String
  severity : String
deriving DecidableEq, Inhabited

/-- The dictionary returned by `_check_fraud_internal`. The not-found
branch returns `success = false` with an error message and no
`expected_amount`; the normal branch returns `success = true`. -/
structure FraudResult where
  success : Bool
  error : Option String
  expected_amount : Option ℚ
  is_fraudulent : Bool
  severity : String
  fraud_indicators : List FraudIndicator
  fraud_score : Nat
  recommendation : String
deriving DecidableEq, Inhabited

/-- Seconds in one day. -/
def oneDay : Nat := 86400

/-- Seconds in seven days. -/
def sevenDays : Nat := 604800

/-- Predicate of the velocity query (`_check_fraud_internal` lines
412-416): a `transactions` row for this customer dated inside the
trailing 24 hours.  The query filters on nothing else. -/
def txnRecent (cid : String) (now : Nat) (t : Txn) : Bool :=
  decide (t.customer_id = cid ∧ now - oneDay < t.transaction_date)

/-- `recent_count` of `_check_fraud_internal` line 418. -/
def recent_count (db : DB) (now : Nat) (cid : String) : Nat :=
  db.transactions.countP (txnRecent cid now)

/-- Predicate of the historical-pattern query (lines 432-440):
a high-severity `fraud_indicators` row for this customer detected inside
the trailing 7 days. -/
def highRecent (cid : String) (now : Nat) (r : FraudIndicatorRow) : Bool :=
  decide (r.customer_id = cid ∧ now - sevenDays < r.detected_at ∧ r.severity = "high")

/-- Insertion step for sorting indicator rows by `detected_at`
descending, modelling `ORDER BY detected_at DESC`. -/
def insertDetectedDesc (r : FraudIndicatorRow) :
    List FraudIndicatorRow → List FraudIndicatorRow
  | [] => [r]
  | x :: xs =>
      if r.detected_at ≤ x.detected_at then x :: insertDetectedDesc r xs
      else r :: x :: xs

/-- Insertion sort by `detected_at` descending (`ORDER BY detected_at DESC`). -/
def sortDetectedDesc : List FraudIndicatorRow → List FraudIndicatorRow
  | [] => []
  | x :: xs => insertDetectedDesc x (sortDetectedDesc xs)

/-- `existing_indicators` of `_check_fraud_internal` line 442: the
high-severity rows of the trailing 7 days, most recent first, capped by
`LIMIT 3`. -/
def existing_indicators (db : DB) (now : Nat) (cid : String) :
    List FraudIndicatorRow :=
  (sortDetectedDesc (db.fraud_indicators.filter (highRecent cid now))).take 3

/-- Mutable local state of `_check_fraud_internal`: the variables
`is_fraudulent`, `severity`, `fraud_indicators` (lines 355-357). -/
structure CheckState where
  is_fraudulent : Bool
  severity : String
  indicators : List FraudIndicator
deriving DecidableEq, Inhabited

/-- The Python builtin `abs` on numbers. -/
def ratAbs (q : ℚ) : ℚ := if q < 0 then -q else q

/-- The high-severity deviation indicator of lines 387-391. -/
def unusualHighInd : FraudIndicator :=
  ⟨"unusual_amount", "Amount deviates more than 50 percent from expected", "high"⟩

/-- The medium-severity deviation indicator of lines 393-397. -/
def unusualMedInd : FraudIndicator :=
  ⟨"unusual_amount", "Amount slightly deviates from expected", "medium"⟩

/-- Check 1 (lines 382-397): amount deviation from the expected amount. -/
def check1 (amount expected : ℚ) (st : CheckState) : CheckState :=
  let amount_deviation := ratAbs (amount - expected) / expected
  if (1 : ℚ)/2 < amount_deviation then
    ⟨true, "high", st.indicators ++ [unusualHighInd]⟩
  else if (1 : ℚ)/5 < amount_deviation then
    ⟨st.is_fraudulent, st.severity, st.indicators ++ [unusualMedInd]⟩
  else st

/-- The low-amount indicator of lines 403-407. -/
def lowAmountInd : FraudIndicator :=
  ⟨"suspicious_low_amount", "Amount is suspiciously low for pension deposit", "high"⟩

/-- Check 2 (lines 399-407): suspiciously low amounts. -/
def check2 (amount : ℚ) (st : CheckState) : CheckState :=
  if amount < 100 then
    ⟨true, if st.severity ≠ "high" then "high" else st.severity,
      st.indicators ++ [lowAmountInd]⟩
  else st

/-- The velocity indicator appended by check 3. -/
def velocityInd : FraudIndicator :=
  ⟨"velocity_check", "Multiple transactions detected in last 24 hours - possible fraud", "high"⟩

/-- Check 3 (lines 409-427): more than 3 transactions in the last 24 hours. -/
def check3 (db : DB) (now : Nat) (cid : String) (st : CheckState) : CheckState :=
  if 3 < recent_count db now cid then
    ⟨true, "high", st.indicators ++ [velocityInd]⟩
  else st

/-- Re-surfacing a stored indicator row into a verdict indicator
(lines 448-453). -/
def resurface (r : FraudIndicatorRow) : FraudIndicator :=
  ⟨r.indicator_type, r.description, r.severity⟩

/-- Check 4 (lines 429-453): two or more recent high-severity stored
indicators force a rejection and are re-surfaced. -/
def check4 (db : DB) (now : Nat) (cid : String) (st : CheckState) : CheckState :=
  if 2 ≤ (existing_indicators db now cid).length then
    ⟨true, "high", st.indicators ++ (existing_indicators db now cid).map resurface⟩
  else st

/-- The verdict of the pension-not-found branch (lines 369-378). -/
def notFoundVerdict : FraudResult :=
  ⟨false, some "Pension details not found", none, true, "high",
    [⟨"invalid_account", "Invalid pension account", "high"⟩], 1, "REJECT"⟩

/-- Persisting one verdict indicator as a `fraud_indicators` row
(lines 484-488); `detected_at` takes the CURRENT_TIMESTAMP default. -/
def toRow (cid : String) (now : Nat) (i : FraudIndicator) : FraudIndicatorRow :=
  ⟨cid, i.type, i.description, i.severity, now⟩

/-- Message of the unguarded division `abs(amount - expected) / expected`. -/
def zeroDivMsg : String := "ZeroDivisionError: float division by zero"

/-- `_check_fraud_internal` (lines 340-494).  Returns the verdict and
the database after the call; the `Except.error` case is the
ZeroDivisionError escaping when the matched monthly amount is zero
(check 5, lines 455-467, reads the schedule table and does nothing). -/
def check_fraud_internal (db : DB) (now : Nat) (cid pid : String) (amount : ℚ) :
    Except String (FraudResult × DB) :=
  match db.pensions.find? (fun p => decide (p.pension_id = pid ∧ p.customer_id = cid)) with
  | none => .ok (notFoundVerdict, db)
  | some pension =>
      let expected_amount := pension.monthly_amount
      if expected_amount = 0 then .error zeroDivMsg
      else
        let st := check4 db now cid
          (check3 db now cid (check2 amount (check1 amount expected_amount ⟨false, "low", []⟩)))
        let result : FraudResult :=
          ⟨true, none, some expected_amount, st.is_fraudulent, st.severity,
            st.indicators, st.indicators.length,
            if st.is_fraudulent then "REJECT" else "APPROVE"⟩
        let db1 : DB :=
          if st.is_fraudulent then
            { db with fraud_indicators :=
                db.fraud_indicators ++ st.indicators.map (toRow cid now) }
          else db
        .ok (result, db1)

/-- Result dictionary of `_get_pension_details_internal` (lines 232-318),
restricted to the fields the scheduler reads back; the read-only recent
transaction listing is serialization detail and is elided. -/
structure PensionDetails where
  success : Bool
  error : Option String
  pension_id : Option String
  monthly_amount : Option ℚ
deriving DecidableEq, Inhabited

/-- `_get_pension_details_internal` (lines 232-318). -/
def get_pension_details_internal (db : DB) (cid : String) : PensionDetails :=
  match db.customers.find? (fun c => decide (c.customer_id = cid)) with
  | none => ⟨false, some "Customer not found in the system", none, none⟩
  | some _ =>
      match db.pensions.find? (fun p => decide (p.customer_id = cid ∧ p.status = "active")) with
      | none => ⟨false, some "No active pension found", none, none⟩
      | some p => ⟨true, none, some p.pension_id, some p.monthly_amount⟩

/-- Result dictionary of `_schedule_recurring_deposit_internal`,
restricted to the fields the claims are about. -/
structure SchedResult where
  success : Bool
  error : Option String
  action : Option String
  schedule_id : Option String
  transaction_id : Option String
  fraud_check : Option FraudResult
  message : Option String
deriving DecidableEq, Inhabited

/-- The verification join of lines 580-587: the customer row joined with
the pension row for `(cid, pid)`, `fetchone`. -/
def verifyJoin (db : DB) (cid pid : String) : Option (Customer × Pension) :=
  match db.customers.find? (fun c => decide (c.customer_id = cid)) with
  | none => none
  | some c =>
      match db.pensions.find? (fun p => decide (p.customer_id = cid ∧ p.pension_id = pid)) with
      | none => none
      | some p => some (c, p)

/-- Next-deposit date resolution of lines 602-608: +30 days for monthly,
+7 for weekly, +30 for anything else. -/
def nextDeposit (now : Nat) (frequency : String) : Nat :=
  if frequency = "monthly" then now + 30 * oneDay
  else if frequency = "weekly" then now + 7 * oneDay
  else now + 30 * oneDay

/-- Predicate of the active-schedule lookup (lines 611-615) and of the
invariant: an active `scheduled_deposits` row for the pair. -/
def activeP (cid pid : String) (s : Schedule) : Bool :=
  decide (s.customer_id = cid ∧ s.pension_id = pid ∧ s.status = "active")

/-- The `fetchone` of lines 611-617. -/
def findActive (db : DB) (cid pid : String) : Option Schedule :=
  db.scheduled_deposits.find? (activeP cid pid)

/-- The upsert of lines 619-637: update the found active row in place
(keeping its schedule id) or insert a fresh active row.  Returns the new
table, the schedule id reported, and the action string. -/
def upsertSchedule (l : List Schedule) (es : Option Schedule) (cid pid : String)
    (amount : ℚ) (frequency : String) (nd : Nat) (freshSid : String) :
    List Schedule × String × String :=
  match es with
  | some s =>
      (l.map (fun x =>
          if x.schedule_id = s.schedule_id then
            { x with amount := amount, frequency := frequency, next_deposit_date := nd }
          else x),
        s.schedule_id, "updated")
  | none =>
      (l ++ [⟨freshSid, cid, pid, amount, frequency, nd, "active"⟩], freshSid, "created")

/-- Whether the storage-exception oracle fires at step `k` of the try block. -/
def raisesAt (fail : Option (Nat × String)) (k : Nat) : Option String :=
  match fail with
  | some (j, m) => if j = k then some m else none
  | none => none

/-- The error dictionary built by the except branch of lines 668-675. -/
def storageError (msg : String) : SchedResult :=
  ⟨false, some msg, none, none, none, none, none⟩

/-- The transaction row appended by lines 639-647: a future-dated,
non-fraudulent scheduled deposit entry dated now. -/
def scheduledTxn (tid cid pid : String) (amount : ℚ) (now nd : Nat) : Txn :=
  ⟨tid, cid, pid, amount, now, "deposit", "scheduled", false, nd⟩

/-- The rejection dictionary of lines 564-573. -/
def fraudRejectResult (fc : FraudResult) : SchedResult :=
  ⟨false, some "Transaction rejected due to fraud detection", none, none, none,
    some fc,
    some ("FRAUD DETECTED: " ++ fc.recommendation ++ " - Found " ++
      toString fc.fraud_score ++ " fraud indicators")⟩

/-- Body of `_schedule_recurring_deposit_internal` after the optional
arguments are resolved (lines 551-678).  The try block holds five
storage operations, numbered for the exception oracle: 0 the
verification SELECT, 1 the active-schedule SELECT, 2 the schedule
UPDATE or INSERT, 3 the transaction INSERT, 4 the commit.  Writes are
pending until the commit; every raise rolls them back, so the failing
returns carry the pre-call database. -/
def sched_after_resolve (db : DB) (now : Nat) (cid pid : String) (amt : ℚ)
    (frequency freshSid freshTid : String) (fail : Option (Nat × String)) :
    Except String (SchedResult × DB) :=
  match check_fraud_internal db now cid pid amt with
  | .error e => .error e
  | .ok (fc, db1) =>
      if fc.is_fraudulent then .ok (fraudRejectResult fc, db1)
      else
        match raisesAt fail 0 with
        | some m => .ok (storageError m, db1)
        | none =>
            match verifyJoin db1 cid pid with
            | none =>
                .ok (⟨false, some "Customer or pension account not found",
                  none, none, none, none, none⟩, db1)
            | some _ =>
                let nd := nextDeposit now frequency
                match raisesAt fail 1 with
                | some m => .ok (storageError m, db1)
                | none =>
                    let es := findActive db1 cid pid
                    match raisesAt fail 2 with
                    | some m => .ok (storageError m, db1)
                    | none =>
                        let up := upsertSchedule db1.scheduled_deposits es cid pid
                          amt frequency nd freshSid
                        match raisesAt fail 3 with
                        | some m => .ok (storageError m, db1)
                        | none =>
                            match raisesAt fail 4 with
                            | some m => .ok (storageError m, db1)
                            | none =>
                                .ok (⟨true, none, some up.2.2, some up.2.1,
                                  some freshTid, none,
                                  some ("Successfully " ++ up.2.2 ++ " " ++ frequency ++
                                    " pension deposit schedule")⟩,
                                  { db1 with
                                      scheduled_deposits := up.1,
                                      transactions := db1.transactions ++
                                        [scheduledTxn freshTid cid pid amt now nd] })

/-- `_schedule_recurring_deposit_internal` (lines 522-678): resolves the
optional pension id and amount from the active pension record
(lines 540-549), then runs the checked scheduling body. -/
def schedule_recurring_deposit_internal (db : DB) (now : Nat) (cid : String)
    (pid? : Option String) (amt? : Option ℚ) (frequency freshSid freshTid : String)
    (fail : Option (Nat × String)) : Except String (SchedResult × DB) :=
  match pid?, amt? with
  | some pid, some amt =>
      sched_after_resolve db now cid pid amt frequency freshSid freshTid fail
  | _, _ =>
      let pd := get_pension_details_internal db cid
      if pd.success then
        sched_after_resolve db now cid (pid?.getD (pd.pension_id.getD ""))
          (amt?.getD (pd.monthly_amount.getD 0)) frequency freshSid freshTid fail
      else
        .ok (⟨false, pd.error, none, none, none, none, none⟩, db)

/-- Connection accounting for one function: how many sqlite connections
it opens and how many it closes. -/
structure ConnUse where
  opened : Nat
  closed : Nat
deriving DecidableEq, Inhabited

/-- Connection behaviour of `init_database` (`finanace_tools.py` lines
40-53 and 132-133; identically `finanace_status_tools.py` lines 39-52
and 190-191).  The argument is the state of the `customers` table:
`none` models the missing-table `sqlite3.OperationalError` path,
`some n` a table with `n` rows.  The function opens one connection; when
the table already has rows it returns early WITHOUT `conn.close()`,
otherwise it creates and seeds the tables, commits and closes. -/
def init_database_conns (customersCount : Option Nat) : ConnUse :=
  match customersCount with
  | some (Nat.succ _) => ⟨1, 0⟩
  | some 0 => ⟨1, 1⟩
  | none => ⟨1, 1⟩

/-- Whether the customers table already has data. -/
def dataPresent (customersCount : Option Nat) : Bool :=
  match customersCount with
  | some (Nat.succ _) => true
  | _ => false

/-- Connection behaviour of one tool invocation: `get_db_connection`
(lines 136-139) first runs `init_database`, then opens the connection
handed to the tool body; every tool body closes that connection before
returning, on success and failure alike (the `finally: conn.close()`
blocks, for example lines 317-318, 493-494, 677-678). -/
def tool_invocation_conns (customersCount : Option Nat) : ConnUse :=
  ⟨(init_database_conns customersCount).opened + 1,
    (init_database_conns customersCount).closed + 1⟩

/-! ### Shape lemmas for the fraud check -/

/-- Every check step only appends to the indicator list. -/
theorem check1_indicators (amount expected : ℚ) (st : CheckState) :
    ∃ t, (check1 amount expected st).indicators = st.indicators ++ t := by
  unfold check1
  dsimp only
  split
  · exact ⟨_, rfl⟩
  split
  · exact ⟨_, rfl⟩
  · exact ⟨[], (List.append_nil _).symm⟩

theorem check2_indicators (amount : ℚ) (st : CheckState) :
    ∃ t, (check2 amount st).indicators = st.indicators ++ t := by
  unfold check2
  split
  · exact ⟨_, rfl⟩
  · exact ⟨[], (List.append_nil _).symm⟩

theorem check3_indicators (db : DB) (now : Nat) (cid : String) (st : CheckState) :
    ∃ t, (check3 db now cid st).indicators = st.indicators ++ t := by
  unfold check3
  split
  · exact ⟨_, rfl⟩
  · exact ⟨[], (List.append_nil _).symm⟩

theorem check4_indicators (db : DB) (now : Nat) (cid : String) (st : CheckState) :
    ∃ t, (check4 db now cid st).indicators = st.indicators ++ t := by
  unfold check4
  split
  · exact ⟨_, rfl⟩
  · exact ⟨[], (List.append_nil _).symm⟩

/-- Later check steps never clear the fraud flag. -/
theorem check2_mono_fraud (amount : ℚ) (st : CheckState)
    (h : st.is_fraudulent = true) : (check2 amount st).is_fraudulent = true := by
  unfold check2
  split <;> simp [h]

theorem check3_mono_fraud (db : DB) (now : Nat) (cid : String) (st : CheckState)
    (h : st.is_fraudulent = true) : (check3 db now cid st).is_fraudulent = true := by
  unfold check3
  split <;> simp [h]

theorem check4_mono_fraud (db : DB) (now : Nat) (cid : String) (st : CheckState)
    (h : st.is_fraudulent = true) : (check4 db now cid st).is_fraudulent = true := by
  unfold check4
  split <;> simp [h]

/-- Later check steps never lower a high severity. -/
theorem check2_mono_sev (amount : ℚ) (st : CheckState)
    (h : st.severity = "high") : (check2 amount st).severity = "high" := by
  unfold check2
  split <;> simp [h]

theorem check3_mono_sev (db : DB) (now : Nat) (cid : String) (st : CheckState)
    (h : st.severity = "high") : (check3 db now cid st).severity = "high" := by
  unfold check3
  split <;> simp [h]

theorem check4_mono_sev (db : DB) (now : Nat) (cid : String) (st : CheckState)
    (h : st.severity = "high") : (check4 db now cid st).severity = "high" := by
  unfold check4
  split <;> simp [h]

/-- Abbreviation for the final check state of the found-pension branch. -/
def checkChain (db : DB) (now : Nat) (cid : String) (amount expected : ℚ) : CheckState :=
  check4 db now cid (check3 db now cid (check2 amount (check1 amount expected ⟨false, "low", []⟩)))

/-- Abbreviation for the verdict built from a check state (lines 469-480). -/
def verdictOf (expected : ℚ) (st : CheckState) : FraudResult :=
  ⟨true, none, some expected, st.is_fraudulent, st.severity, st.indicators,
    st.indicators.length, if st.is_fraudulent then "REJECT" else "APPROVE"⟩

/-- The fraud check, unfolded on the found-pension branch. -/
theorem check_fraud_found (db : DB) (now : Nat) (cid pid : String) (amount : ℚ)
    (p : Pension)
    (hfind : db.pensions.find? (fun p => decide (p.pension_id = pid ∧ p.customer_id = cid))
      = some p)
    (hE : p.monthly_amount ≠ 0) :
    check_fraud_internal db now cid pid amount =
      .ok (verdictOf p.monthly_amount (checkChain db now cid amount p.monthly_amount),
        if (checkChain db now cid amount p.monthly_amount).is_fraudulent then
          { db with fraud_indicators := db.fraud_indicators ++
              (checkChain db now cid amount p.monthly_amount).indicators.map (toRow cid now) }
        else db) := by
  unfold check_fraud_internal
  rw [hfind]
  simp only [hE, if_false, checkChain, verdictOf]

/-- The fraud check on an unknown pension returns the fixed rejection
verdict and leaves the database untouched. -/
theorem check_fraud_not_found (db : DB) (now : Nat) (cid pid : String) (amount : ℚ)
    (hfind : db.pensions.find? (fun p => decide (p.pension_id = pid ∧ p.customer_id = cid))
      = none) :
    check_fraud_internal db now cid pid amount = .ok (notFoundVerdict, db) := by
  unfold check_fraud_internal
  rw [hfind]

/-- The fraud check on a known pension with zero expected amount raises. -/
theorem check_fraud_zero_div (db : DB) (now : Nat) (cid pid : String) (amount : ℚ)
    (p : Pension)
    (hfind : db.pensions.find? (fun p => decide (p.pension_id = pid ∧ p.customer_id = cid))
      = some p)
    (hE : p.monthly_amount = 0) :
    check_fraud_internal db now cid pid amount = .error zeroDivMsg := by
  unfold check_fraud_internal
  rw [hfind]
  simp [hE]

/-- Whatever the fraud check returns, every table except
`fraud_indicators` is unchanged, and `fraud_indicators` only grows by a
suffix. -/
theorem check_fraud_tables (db : DB) (now : Nat) (cid pid : String) (amount : ℚ)
    (fc : FraudResult) (db1 : DB)
    (h : check_fraud_internal db now cid pid amount = .ok (fc, db1)) :
    db1.customers = db.customers ∧ db1.pensions = db.pensions ∧
    db1.transactions = db.transactions ∧
    db1.scheduled_deposits = db.scheduled_deposits ∧
    ∃ new, db1.fraud_indicators = db.fraud_indicators ++ new := by
  unfold check_fraud_internal at h
  rcases hfind : db.pensions.find?
      (fun p => decide (p.pension_id = pid ∧ p.customer_id = cid)) with _ | p
  · rw [hfind] at h
    simp only [Except.ok.injEq, Prod.mk.injEq] at h
    rw [← h.2]
    exact ⟨rfl, rfl, rfl, rfl, [], (List.append_nil _).symm⟩
  · rw [hfind] at h
    by_cases hE : p.monthly_amount = 0
    · simp [hE] at h
    · simp only [hE, if_false, Except.ok.injEq, Prod.mk.injEq] at h
      rw [← h.2]
      split
      · exact ⟨rfl, rfl, rfl, rfl, _, rfl⟩
      · exact ⟨rfl, rfl, rfl, rfl, [], (List.append_nil _).symm⟩

/-- A verdict that is not fraudulent performs no write at all. -/
theorem check_fraud_not_fraudulent_db (db : DB) (now : Nat) (cid pid : String)
    (amount : ℚ) (fc : FraudResult) (db1 : DB)
    (h : check_fraud_internal db now cid pid amount = .ok (fc, db1))
    (hf : fc.is_fraudulent = false) : db1 = db := by
  unfold check_fraud_internal at h
  rcases hfind : db.pensions.find?
      (fun p => decide (p.pension_id = pid ∧ p.customer_id = cid)) with _ | p
  · rw [hfind] at h
    simp only [Except.ok.injEq, Prod.mk.injEq] at h
    rw [← h.1] at hf
    simp [notFoundVerdict] at hf
  · rw [hfind] at h
    by_cases hE : p.monthly_amount = 0
    · simp [hE] at h
    · simp only [hE, if_false, Except.ok.injEq, Prod.mk.injEq] at h
      rw [← h.1] at hf
      simp only at hf
      rw [← h.2]
      simp [hf]

/-- Indicators survive the later check steps. -/
theorem check2_mono_mem (amount : ℚ) (st : CheckState) (i : FraudIndicator)
    (h : i ∈ st.indicators) : i ∈ (check2 amount st).indicators := by
  obtain ⟨t, ht⟩ := check2_indicators amount st
  rw [ht]
  exact List.mem_append_left _ h

theorem check3_mono_mem (db : DB) (now : Nat) (cid : String) (st : CheckState)
    (i : FraudIndicator) (h : i ∈ st.indicators) :
    i ∈ (check3 db now cid st).indicators := by
  obtain ⟨t, ht⟩ := check3_indicators db now cid st
  rw [ht]
  exact List.mem_append_left _ h

theorem check4_mono_mem (db : DB) (now : Nat) (cid : String) (st : CheckState)
    (i : FraudIndicator) (h : i ∈ st.indicators) :
    i ∈ (check4 db now cid st).indicators := by
  obtain ⟨t, ht⟩ := check4_indicators db now cid st
  rw [ht]
  exact List.mem_append_left _ h

/-- A low amount makes check 2 fire with a high-severity state. -/
theorem check2_fires (amount : ℚ) (st : CheckState) (h : amount < 100) :
    check2 amount st = ⟨true, "high", st.indicators ++ [lowAmountInd]⟩ := by
  unfold check2
  rw [if_pos h]
  by_cases hs : st.severity = "high" <;> simp [hs]

/-! ### C9: unguarded division by the expected amount -/

/-- C9.  The fraud check divides by the matched monthly amount without a
zero guard: when that amount is 0 the call raises a ZeroDivisionError
instead of returning a verdict, and whenever it is nonzero the call
returns a structured verdict.  (`_check_fraud_internal` lines 380-384.) -/
theorem fraud_check_zero_division :
    (∀ (db : DB) (now : Nat) (cid pid : String) (amount : ℚ) (p : Pension),
      db.pensions.find? (fun p => decide (p.pension_id = pid ∧ p.customer_id = cid)) = some p →
      p.monthly_amount = 0 →
      check_fraud_internal db now cid pid amount = .error zeroDivMsg) ∧
    (∀ (db : DB) (now : Nat) (cid pid : String) (amount : ℚ) (p : Pension),
      db.pensions.find? (fun p => decide (p.pension_id = pid ∧ p.customer_id = cid)) = some p →
      p.monthly_amount ≠ 0 →
      ∃ res db1, check_fraud_internal db now cid pid amount = .ok (res, db1)) := by
  constructor
  · intro db now cid pid amount p hfind hE
    exact check_fraud_zero_div db now cid pid amount p hfind hE
  · intro db now cid pid amount p hfind hE
    exact ⟨_, _, check_fraud_found db now cid pid amount p hfind hE⟩

/-- Database with a zero-amount pension, exercising the division guard gap. -/
def dbZeroPension : DB :=
  ⟨[⟨"C001", "John Doe", "ACC1001"⟩],
   [⟨"P001", "C001", "Government Pension", 0, "active", "ACC1001"⟩],
   [], [], []⟩

/-- Database with the seeded pension P001 of 2500 per month and no
transactions or stored indicators. -/
def dbSeed : DB :=
  ⟨[⟨"C001", "John Doe", "ACC1001"⟩],
   [⟨"P001", "C001", "Government Pension", 2500, "active", "ACC1001"⟩],
   [], [], []⟩

/-- Witness for C9 at concrete inputs. -/
theorem fraud_check_zero_division_witness :
    check_fraud_internal dbZeroPension 1000 "C001" "P001" 50 = .error zeroDivMsg ∧
    ∃ res db1, check_fraud_internal dbSeed 1000 "C001" "P001" 50 = .ok (res, db1) :=
  ⟨fraud_check_zero_division.1 dbZeroPension 1000 "C001" "P001" 50
      ⟨"P001", "C001", "Government Pension", 0, "active", "ACC1001"⟩ (by decide) (by decide),
   fraud_check_zero_division.2 dbSeed 1000 "C001" "P001" 50
      ⟨"P001", "C001", "Government Pension", 2500, "active", "ACC1001"⟩ (by decide) (by decide)⟩

/-! ### C6: the low-amount floor -/

/-- C6, corrected.  On a matched pension whose expected amount is not
zero, any amount below 100 yields a verdict with the high-severity
suspicious_low_amount indicator, severity high and recommendation
REJECT, whatever the expected amount is.  (The zero expected amount has
to be excluded: there the division of line 383 raises before check 2
runs, see the counterexample.) -/
theorem low_amount_rejects (db : DB) (now : Nat) (cid pid : String) (amount : ℚ)
    (p : Pension)
    (hfind : db.pensions.find? (fun p => decide (p.pension_id = pid ∧ p.customer_id = cid))
      = some p)
    (hE : p.monthly_amount ≠ 0)
    (hlow : amount < 100) :
    ∃ res db1, check_fraud_internal db now cid pid amount = .ok (res, db1) ∧
      lowAmountInd ∈ res.fraud_indicators ∧
      res.is_fraudulent = true ∧
      res.severity = "high" ∧
      res.recommendation = "REJECT" := by
  have hfr : (checkChain db now cid amount p.monthly_amount).is_fraudulent = true := by
    unfold checkChain
    apply check4_mono_fraud
    apply check3_mono_fraud
    rw [check2_fires _ _ hlow]
  have hsev : (checkChain db now cid amount p.monthly_amount).severity = "high" := by
    unfold checkChain
    apply check4_mono_sev
    apply check3_mono_sev
    rw [check2_fires _ _ hlow]
  have hmem : lowAmountInd ∈ (checkChain db now cid amount p.monthly_amount).indicators := by
    unfold checkChain
    apply check4_mono_mem
    apply check3_mono_mem
    rw [check2_fires _ _ hlow]
    simp
  refine ⟨_, _, check_fraud_found db now cid pid amount p hfind hE, hmem, hfr, hsev, ?_⟩
  dsimp only [verdictOf]
  rw [if_pos hfr]

/-- Counterexample to C6 as stated: with expected amount 0 the check on
an amount below 100 raises the ZeroDivisionError instead of returning a
REJECT verdict, so the floor does not hold regardless of the expected
amount. -/
theorem low_amount_rejects_counterexample :
    dbZeroPension.pensions.find?
        (fun p => decide (p.pension_id = "P001" ∧ p.customer_id = "C001"))
      = some ⟨"P001", "C001", "Government Pension", 0, "active", "ACC1001"⟩ ∧
    (50 : ℚ) < 100 ∧
    check_fraud_internal dbZeroPension 1000 "C001" "P001" 50 = .error zeroDivMsg :=
  ⟨by decide, by decide, by decide⟩

/-- Witness for the amended C6 at a concrete input. -/
theorem low_amount_rejects_witness :
    ∃ res db1, check_fraud_internal dbSeed 1000 "C001" "P001" 50 = .ok (res, db1) ∧
      lowAmountInd ∈ res.fraud_indicators ∧
      res.is_fraudulent = true ∧
      res.severity = "high" ∧
      res.recommendation = "REJECT" :=
  low_amount_rejects dbSeed 1000 "C001" "P001" 50
    ⟨"P001", "C001", "Government Pension", 2500, "active", "ACC1001"⟩
    (by decide) (by decide) (by decide)

/-! ### C3: the deviation bands -/

/-- A deviation above one half makes check 1 fire at high severity. -/
theorem check1_fires_high (amount expected : ℚ) (st : CheckState)
    (h : (1 : ℚ)/2 < ratAbs (amount - expected) / expected) :
    check1 amount expected st = ⟨true, "high", st.indicators ++ [unusualHighInd]⟩ := by
  unfold check1
  dsimp only
  rw [if_pos h]

/-- A deviation in the medium band appends the informational indicator
and changes nothing else. -/
theorem check1_fires_med (amount expected : ℚ) (st : CheckState)
    (h2 : ¬ (1 : ℚ)/2 < ratAbs (amount - expected) / expected)
    (h5 : (1 : ℚ)/5 < ratAbs (amount - expected) / expected) :
    check1 amount expected st
      = ⟨st.is_fraudulent, st.severity, st.indicators ++ [unusualMedInd]⟩ := by
  unfold check1
  dsimp only
  rw [if_neg h2, if_pos h5]

/-- A deviation of at most one fifth leaves check 1 silent. -/
theorem check1_silent (amount expected : ℚ) (st : CheckState)
    (h5 : ¬ (1 : ℚ)/5 < ratAbs (amount - expected) / expected) :
    check1 amount expected st = st := by
  unfold check1
  dsimp only
  rw [if_neg (fun h => h5 (lt_trans (by norm_num) h)), if_neg h5]

/-- Check 2 is silent at or above the floor. -/
theorem check2_silent (amount : ℚ) (st : CheckState) (h : ¬ amount < 100) :
    check2 amount st = st := by
  unfold check2
  rw [if_neg h]

/-- Check 3 is silent at up to three recent transactions. -/
theorem check3_silent (db : DB) (now : Nat) (cid : String) (st : CheckState)
    (h : ¬ 3 < recent_count db now cid) : check3 db now cid st = st := by
  unfold check3
  rw [if_neg h]

/-- Check 4 is silent below two recent high-severity stored indicators. -/
theorem check4_silent (db : DB) (now : Nat) (cid : String) (st : CheckState)
    (h : ¬ 2 ≤ (existing_indicators db now cid).length) : check4 db now cid st = st := by
  unfold check4
  rw [if_neg h]

/-- C3.  For a known pension with positive expected amount: a deviation
above one half yields the high-severity unusual_amount indicator and
REJECT; a deviation in the band from one fifth (exclusive) to one half
(inclusive) yields the medium unusual_amount indicator and, by itself
(no floor, velocity or history flag), leaves the recommendation
APPROVE; a deviation of at most one fifth with no other flag yields
APPROVE with no fraud flag.  (`_check_fraud_internal` lines 382-397.) -/
theorem deviation_bands (db : DB) (now : Nat) (cid pid : String) (amount : ℚ)
    (p : Pension)
    (hfind : db.pensions.find? (fun p => decide (p.pension_id = pid ∧ p.customer_id = cid))
      = some p)
    (hE : 0 < p.monthly_amount) :
    ∃ res db1, check_fraud_internal db now cid pid amount = .ok (res, db1) ∧
      ((1 : ℚ)/2 < ratAbs (amount - p.monthly_amount) / p.monthly_amount →
        unusualHighInd ∈ res.fraud_indicators ∧ res.recommendation = "REJECT") ∧
      ((1 : ℚ)/5 < ratAbs (amount - p.monthly_amount) / p.monthly_amount →
        ratAbs (amount - p.monthly_amount) / p.monthly_amount ≤ (1 : ℚ)/2 →
        unusualMedInd ∈ res.fraud_indicators ∧
        (100 ≤ amount → recent_count db now cid ≤ 3 →
          (existing_indicators db now cid).length < 2 →
          res.recommendation = "APPROVE")) ∧
      (ratAbs (amount - p.monthly_amount) / p.monthly_amount ≤ (1 : ℚ)/5 →
        100 ≤ amount → recent_count db now cid ≤ 3 →
        (existing_indicators db now cid).length < 2 →
        res.is_fraudulent = false ∧ res.recommendation = "APPROVE") := by
  refine ⟨_, _, check_fraud_found db now cid pid amount p hfind (ne_of_gt hE), ?_, ?_, ?_⟩
  · intro hdev
    have hfr : (checkChain db now cid amount p.monthly_amount).is_fraudulent = true := by
      unfold checkChain
      apply check4_mono_fraud
      apply check3_mono_fraud
      apply check2_mono_fraud
      rw [check1_fires_high _ _ _ hdev]
    constructor
    · unfold checkChain
      apply check4_mono_mem
      apply check3_mono_mem
      apply check2_mono_mem
      rw [check1_fires_high _ _ _ hdev]
      simp
    · dsimp only [verdictOf]
      rw [if_pos hfr]
  · intro h5 hhalf
    have h1 : check1 amount p.monthly_amount ⟨false, "low", []⟩
        = ⟨false, "low", [unusualMedInd]⟩ := by
      rw [check1_fires_med _ _ _ (not_lt.mpr hhalf) h5]
      rfl
    constructor
    · unfold checkChain
      apply check4_mono_mem
      apply check3_mono_mem
      apply check2_mono_mem
      rw [h1]
      simp
    · intro hfloor hvel hhist
      have hch : checkChain db now cid amount p.monthly_amount
          = ⟨false, "low", [unusualMedInd]⟩ := by
        unfold checkChain
        rw [h1, check2_silent _ _ (not_lt.mpr hfloor),
          check3_silent _ _ _ _ (not_lt.mpr hvel),
          check4_silent _ _ _ _ (not_le.mpr hhist)]
      dsimp only [verdictOf]
      rw [hch]
      rfl
  · intro h5 hfloor hvel hhist
    have hch : checkChain db now cid amount p.monthly_amount
        = ⟨false, "low", []⟩ := by
      unfold checkChain
      rw [check1_silent _ _ _ (not_lt.mpr h5), check2_silent _ _ (not_lt.mpr hfloor),
        check3_silent _ _ _ _ (not_lt.mpr hvel),
        check4_silent _ _ _ _ (not_le.mpr hhist)]
    dsimp only [verdictOf]
    rw [hch]
    exact ⟨rfl, rfl⟩

/-- Witness for C3 at a concrete input. -/
theorem deviation_bands_witness :
    ∃ res db1, check_fraud_internal dbSeed 2000 "C001" "P001" 2600 = .ok (res, db1) ∧
      ((1 : ℚ)/2 < ratAbs (2600 - (2500 : ℚ)) / 2500 →
        unusualHighInd ∈ res.fraud_indicators ∧ res.recommendation = "REJECT") ∧
      ((1 : ℚ)/5 < ratAbs (2600 - (2500 : ℚ)) / 2500 →
        ratAbs (2600 - (2500 : ℚ)) / 2500 ≤ (1 : ℚ)/2 →
        unusualMedInd ∈ res.fraud_indicators ∧
        (100 ≤ (2600 : ℚ) → recent_count dbSeed 2000 "C001" ≤ 3 →
          (existing_indicators dbSeed 2000 "C001").length < 2 →
          res.recommendation = "APPROVE")) ∧
      (ratAbs (2600 - (2500 : ℚ)) / 2500 ≤ (1 : ℚ)/5 →
        100 ≤ (2600 : ℚ) → recent_count dbSeed 2000 "C001" ≤ 3 →
        (existing_indicators dbSeed 2000 "C001").length < 2 →
        res.is_fraudulent = false ∧ res.recommendation = "APPROVE") :=
  deviation_bands dbSeed 2000 "C001" "P001" 2600
    ⟨"P001", "C001", "Government Pension", 2500, "active", "ACC1001"⟩
    (by decide) (by decide)

/-! ### Shape lemmas for the scheduler -/

/-- Case analysis on the checked scheduling body: it always runs the
fraud check first, and the final database is either the fraud-check
database (every non-success path) or that database with the schedule
upsert and the transaction append applied (the success path). -/
theorem sched_after_resolve_cases (db : DB) (now : Nat) (cid pid : String) (amt : ℚ)
    (frequency freshSid freshTid : String) (fail : Option (Nat × String))
    (r : SchedResult) (db' : DB)
    (h : sched_after_resolve db now cid pid amt frequency freshSid freshTid fail
      = .ok (r, db')) :
    ∃ fc db1, check_fraud_internal db now cid pid amt = .ok (fc, db1) ∧
      (db' = db1 ∨
        db' = { db1 with
          scheduled_deposits := (upsertSchedule db1.scheduled_deposits
            (findActive db1 cid pid) cid pid amt frequency (nextDeposit now frequency)
            freshSid).1,
          transactions := db1.transactions ++
            [scheduledTxn freshTid cid pid amt now (nextDeposit now frequency)] }) := by
  unfold sched_after_resolve at h
  rcases hc : check_fraud_internal db now cid pid amt with e | ⟨fc, db1⟩
  · rw [hc] at h
    simp at h
  · rw [hc] at h
    refine ⟨fc, db1, rfl, ?_⟩
    dsimp only at h
    split at h
    · simp only [Except.ok.injEq, Prod.mk.injEq] at h
      exact Or.inl h.2.symm
    · split at h
      · simp only [Except.ok.injEq, Prod.mk.injEq] at h
        exact Or.inl h.2.symm
      · split at h
        · simp only [Except.ok.injEq, Prod.mk.injEq] at h
          exact Or.inl h.2.symm
        · split at h
          · simp only [Except.ok.injEq, Prod.mk.injEq] at h
            exact Or.inl h.2.symm
          · split at h
            · simp only [Except.ok.injEq, Prod.mk.injEq] at h
              exact Or.inl h.2.symm
            · split at h
              · simp only [Except.ok.injEq, Prod.mk.injEq] at h
                exact Or.inl h.2.symm
              · split at h
                · simp only [Except.ok.injEq, Prod.mk.injEq] at h
                  exact Or.inl h.2.symm
                · simp only [Except.ok.injEq, Prod.mk.injEq] at h
                  exact Or.inr h.2.symm

/-- Success shape of the checked scheduling body: on a successful
result the fraud check was clean (so it wrote nothing), and the final
database is the input one with exactly the schedule upsert and one
appended transaction row. -/
theorem sched_after_resolve_success (db : DB) (now : Nat) (cid pid : String) (amt : ℚ)
    (frequency freshSid freshTid : String) (fail : Option (Nat × String))
    (r : SchedResult) (db' : DB)
    (h : sched_after_resolve db now cid pid amt frequency freshSid freshTid fail
      = .ok (r, db'))
    (hs : r.success = true) :
    ∃ fc, check_fraud_internal db now cid pid amt = .ok (fc, db) ∧
      fc.is_fraudulent = false ∧
      db' = { db with
        scheduled_deposits := (upsertSchedule db.scheduled_deposits
          (findActive db cid pid) cid pid amt frequency (nextDeposit now frequency)
          freshSid).1,
        transactions := db.transactions ++
          [scheduledTxn freshTid cid pid amt now (nextDeposit now frequency)] } ∧
      r = ⟨true, none,
        some (upsertSchedule db.scheduled_deposits (findActive db cid pid) cid pid amt
          frequency (nextDeposit now frequency) freshSid).2.2,
        some (upsertSchedule db.scheduled_deposits (findActive db cid pid) cid pid amt
          frequency (nextDeposit now frequency) freshSid).2.1,
        some freshTid, none,
        some ("Successfully " ++ (upsertSchedule db.scheduled_deposits
            (findActive db cid pid) cid pid amt frequency (nextDeposit now frequency)
            freshSid).2.2 ++ " " ++ frequency ++ " pension deposit schedule")⟩ := by
  unfold sched_after_resolve at h
  rcases hc : check_fraud_internal db now cid pid amt with e | ⟨fc, db1⟩
  · rw [hc] at h
    simp at h
  · rw [hc] at h
    dsimp only at h
    split at h
    · simp only [Except.ok.injEq, Prod.mk.injEq] at h
      rw [← h.1] at hs
      simp [fraudRejectResult] at hs
    · next hnf =>
      have hnf' : fc.is_fraudulent = false := by
        revert hnf
        cases fc.is_fraudulent <;> simp
      have hdb1 : db1 = db :=
        check_fraud_not_fraudulent_db db now cid pid amt fc db1 hc hnf'
      rw [hdb1] at h
      refine ⟨fc, by rw [hdb1], hnf', ?_⟩
      split at h
      · simp only [Except.ok.injEq, Prod.mk.injEq] at h
        rw [← h.1] at hs
        simp [storageError] at hs
      · split at h
        · simp only [Except.ok.injEq, Prod.mk.injEq] at h
          rw [← h.1] at hs
          simp at hs
        · split at h
          · simp only [Except.ok.injEq, Prod.mk.injEq] at h
            rw [← h.1] at hs
            simp [storageError] at hs
          · split at h
            · simp only [Except.ok.injEq, Prod.mk.injEq] at h
              rw [← h.1] at hs
              simp [storageError] at hs
            · split at h
              · simp only [Except.ok.injEq, Prod.mk.injEq] at h
                rw [← h.1] at hs
                simp [storageError] at hs
              · split at h
                · simp only [Except.ok.injEq, Prod.mk.injEq] at h
                  rw [← h.1] at hs
                  simp [storageError] at hs
                · simp only [Except.ok.injEq, Prod.mk.injEq] at h
                  exact ⟨h.2.symm, h.1.symm⟩

/-- The checked scheduling body only ever appends to `fraud_indicators`. -/
theorem sched_after_resolve_fi (db : DB) (now : Nat) (cid pid : String) (amt : ℚ)
    (frequency freshSid freshTid : String) (fail : Option (Nat × String))
    (r : SchedResult) (db' : DB)
    (h : sched_after_resolve db now cid pid amt frequency freshSid freshTid fail
      = .ok (r, db')) :
    ∃ new, db'.fraud_indicators = db.fraud_indicators ++ new := by
  obtain ⟨fc, db1, hc, hor⟩ :=
    sched_after_resolve_cases db now cid pid amt frequency freshSid freshTid fail r db' h
  obtain ⟨-, -, -, -, new, hfi⟩ :=
    check_fraud_tables db now cid pid amt fc db1 hc
  rcases hor with rfl | rfl
  · exact ⟨new, hfi⟩
  · exact ⟨new, hfi⟩

/-! ### C4: persistence of rejection indicators -/

/-- C4, amended.  On the found-pension path a REJECT verdict appends
exactly its indicator list to the `fraud_indicators` table and touches
nothing else of it; the not-found REJECT (whose verdict has
success = false) persists nothing; and the scheduler also only ever
appends to the table.  Existing rows are never modified or deleted. -/
theorem reject_indicators_persisted :
    (∀ (db : DB) (now : Nat) (cid pid : String) (amount : ℚ)
        (fc : FraudResult) (db1 : DB),
      check_fraud_internal db now cid pid amount = .ok (fc, db1) →
      fc.success = true → fc.is_fraudulent = true →
      db1.fraud_indicators
        = db.fraud_indicators ++ fc.fraud_indicators.map (toRow cid now)) ∧
    (∀ (db : DB) (now : Nat) (cid pid : String) (amount : ℚ)
        (fc : FraudResult) (db1 : DB),
      check_fraud_internal db now cid pid amount = .ok (fc, db1) →
      fc.success = false → db1 = db) ∧
    (∀ (db : DB) (now : Nat) (cid : String) (pid? : Option String) (amt? : Option ℚ)
        (frequency freshSid freshTid : String) (fail : Option (Nat × String))
        (r : SchedResult) (db' : DB),
      schedule_recurring_deposit_internal db now cid pid? amt? frequency
        freshSid freshTid fail = .ok (r, db') →
      ∃ new, db'.fraud_indicators = db.fraud_indicators ++ new) := by
  refine ⟨?_, ?_, ?_⟩
  · intro db now cid pid amount fc db1 h hsucc hf
    unfold check_fraud_internal at h
    rcases hfind : db.pensions.find?
        (fun p => decide (p.pension_id = pid ∧ p.customer_id = cid)) with _ | p
    · rw [hfind] at h
      simp only [Except.ok.injEq, Prod.mk.injEq] at h
      rw [← h.1] at hsucc
      simp [notFoundVerdict] at hsucc
    · rw [hfind] at h
      by_cases hE : p.monthly_amount = 0
      · simp [hE] at h
      · simp only [hE, if_false, Except.ok.injEq, Prod.mk.injEq] at h
        rw [← h.1] at hf
        simp only at hf
        rw [← h.2, ← h.1]
        simp only [hf, if_pos]
  · intro db now cid pid amount fc db1 h hsucc
    unfold check_fraud_internal at h
    rcases hfind : db.pensions.find?
        (fun p => decide (p.pension_id = pid ∧ p.customer_id = cid)) with _ | p
    · rw [hfind] at h
      simp only [Except.ok.injEq, Prod.mk.injEq] at h
      exact h.2.symm
    · rw [hfind] at h
      by_cases hE : p.monthly_amount = 0
      · simp [hE] at h
      · simp only [hE, if_false, Except.ok.injEq, Prod.mk.injEq] at h
        rw [← h.1] at hsucc
        simp at hsucc
  · intro db now cid pid? amt? frequency freshSid freshTid fail r db' h
    unfold schedule_recurring_deposit_internal at h
    split at h
    · exact sched_after_resolve_fi db now cid _ _ frequency freshSid freshTid fail r db' h
    · dsimp only at h
      split at h
      · exact sched_after_resolve_fi db now cid _ _ frequency freshSid freshTid fail r db' h
      · simp only [Except.ok.injEq, Prod.mk.injEq] at h
        rw [← h.2]
        exact ⟨[], (List.append_nil _).symm⟩

/-- Customer with no pension rows at all. -/
def dbNoPension : DB :=
  ⟨[⟨"C001", "John Doe", "ACC1001"⟩], [], [], [], []⟩

/-- Counterexample to C4 as stated: the not-found REJECT verdict carries
an indicator, yet the `fraud_indicators` table stays empty, so not every
indicator of a REJECT verdict is persisted. -/
theorem reject_indicators_persisted_counterexample :
    check_fraud_internal dbNoPension 1000 "C001" "P001" 2500
      = .ok (notFoundVerdict, dbNoPension) ∧
    notFoundVerdict.recommendation = "REJECT" ∧
    notFoundVerdict.fraud_indicators
      = [⟨"invalid_account", "Invalid pension account", "high"⟩] ∧
    dbNoPension.fraud_indicators = [] :=
  ⟨by decide, by decide, by decide, by decide⟩

/-- Witness for the amended C4 at concrete inputs. -/
theorem reject_indicators_persisted_witness :
    ((check_fraud_internal dbSeed 1000 "C001" "P001" 50).toOption.iget.2).fraud_indicators
      = dbSeed.fraud_indicators ++
        ((check_fraud_internal dbSeed 1000 "C001" "P001" 50).toOption.iget.1).fraud_indicators.map
          (toRow "C001" 1000) ∧
    (check_fraud_internal dbNoPension 1000 "C001" "P001" 2500).toOption.iget.2 = dbNoPension ∧
    ∃ new, ((schedule_recurring_deposit_internal dbSeed 1000 "C001" (some "P001") (some 2500)
        "monthly" "S1" "T1" none).toOption.iget.2).fraud_indicators
      = dbSeed.fraud_indicators ++ new :=
  ⟨reject_indicators_persisted.1 dbSeed 1000 "C001" "P001" 50 _ _ (by rfl)
      (by decide) (by decide),
   reject_indicators_persisted.2.1 dbNoPension 1000 "C001" "P001" 2500 _ _ (by rfl)
      (by decide),
   reject_indicators_persisted.2.2 dbSeed 1000 "C001" (some "P001") (some 2500)
      "monthly" "S1" "T1" none _ _ (by rfl)⟩

/-! ### C1: a fraudulent verdict aborts scheduling with no writes -/

/-- C1.  When the fraud evaluation run at the start of the scheduler
returns a fraudulent verdict, the call returns the rejection result
carrying that verdict, and the `scheduled_deposits` and `transactions`
tables are unchanged (`_schedule_recurring_deposit_internal` lines
551-573). -/
theorem fraud_abort_no_writes (db : DB) (now : Nat) (cid pid : String) (amt : ℚ)
    (frequency freshSid freshTid : String) (fail : Option (Nat × String))
    (fc : FraudResult) (db1 : DB)
    (h : check_fraud_internal db now cid pid amt = .ok (fc, db1))
    (hf : fc.is_fraudulent = true) :
    schedule_recurring_deposit_internal db now cid (some pid) (some amt) frequency
        freshSid freshTid fail = .ok (fraudRejectResult fc, db1) ∧
    (fraudRejectResult fc).success = false ∧
    (fraudRejectResult fc).fraud_check = some fc ∧
    db1.scheduled_deposits = db.scheduled_deposits ∧
    db1.transactions = db.transactions := by
  obtain ⟨-, -, htx, hsd, -⟩ := check_fraud_tables db now cid pid amt fc db1 h
  refine ⟨?_, rfl, rfl, hsd, htx⟩
  unfold schedule_recurring_deposit_internal sched_after_resolve
  dsimp only
  rw [h]
  dsimp only
  rw [if_pos hf]

/-- Witness for C1 at a concrete input: an amount of 50 on the seeded
pension is flagged, and scheduling aborts without touching the schedule
or transaction tables. -/
theorem fraud_abort_no_writes_witness :
    schedule_recurring_deposit_internal dbSeed 1000 "C001" (some "P001") (some 50)
        "monthly" "S1" "T1" none
      = .ok (fraudRejectResult ((check_fraud_internal dbSeed 1000 "C001" "P001" 50).toOption.iget.1),
        (check_fraud_internal dbSeed 1000 "C001" "P001" 50).toOption.iget.2) ∧
    (fraudRejectResult ((check_fraud_internal dbSeed 1000 "C001" "P001" 50).toOption.iget.1)).success
      = false ∧
    (fraudRejectResult ((check_fraud_internal dbSeed 1000 "C001" "P001" 50).toOption.iget.1)).fraud_check
      = some ((check_fraud_internal dbSeed 1000 "C001" "P001" 50).toOption.iget.1) ∧
    ((check_fraud_internal dbSeed 1000 "C001" "P001" 50).toOption.iget.2).scheduled_deposits
      = dbSeed.scheduled_deposits ∧
    ((check_fraud_internal dbSeed 1000 "C001" "P001" 50).toOption.iget.2).transactions
      = dbSeed.transactions :=
  fraud_abort_no_writes dbSeed 1000 "C001" "P001" 50 "monthly" "S1" "T1" none _ _
    (by rfl) (by decide)

/-! ### C7: storage exceptions roll back the whole mutation -/

/-- C7.  If any of the five storage operations of the try block (the
verification SELECT, the schedule SELECT, the schedule UPDATE or
INSERT, the transaction INSERT, the commit) raises, the call returns
the structured error carrying the message and the database is exactly
the pre-call one: no partial state survives
(`_schedule_recurring_deposit_internal` lines 668-678). -/
theorem storage_error_rolls_back (db : DB) (now : Nat) (cid pid : String) (amt : ℚ)
    (frequency freshSid freshTid : String) (k : Nat) (msg : String)
    (fc : FraudResult) (j : Customer × Pension)
    (hc : check_fraud_internal db now cid pid amt = .ok (fc, db))
    (hnf : fc.is_fraudulent = false)
    (hj : verifyJoin db cid pid = some j)
    (hk : k ≤ 4) :
    schedule_recurring_deposit_internal db now cid (some pid) (some amt) frequency
        freshSid freshTid (some (k, msg)) = .ok (storageError msg, db) ∧
    (storageError msg).success = false ∧
    (storageError msg).error = some msg := by
  refine ⟨?_, rfl, rfl⟩
  unfold schedule_recurring_deposit_internal sched_after_resolve
  dsimp only
  rw [hc]
  dsimp only
  rw [if_neg (by simp [hnf])]
  interval_cases k <;> simp [raisesAt, hj]

/-- Witness for C7 at a concrete input: the transaction INSERT raises
and the seeded database is returned unchanged. -/
theorem storage_error_rolls_back_witness :
    schedule_recurring_deposit_internal dbSeed 1000 "C001" (some "P001") (some 2500)
        "monthly" "S1" "T1" (some (3, "disk I O error"))
      = .ok (storageError "disk I O error", dbSeed) ∧
    (storageError "disk I O error").success = false ∧
    (storageError "disk I O error").error = some "disk I O error" :=
  storage_error_rolls_back dbSeed 1000 "C001" "P001" 2500 "monthly" "S1" "T1" 3
    "disk I O error" _ _ (by rfl) (by decide) (by rfl) (by decide)

/-! ### C5: the historical pattern check and its LIMIT 3 -/

/-- Inserting into the descending sort permutes the cons. -/
theorem insertDetectedDesc_perm (r : FraudIndicatorRow) (l : List FraudIndicatorRow) :
    List.Perm (insertDetectedDesc r l) (r :: l) := by
  induction l with
  | nil => exact List.Perm.refl _
  | cons x xs ih =>
    unfold insertDetectedDesc
    split
    · exact (ih.cons x).trans (List.Perm.swap r x xs)
    · exact List.Perm.refl _

/-- The descending sort is a permutation of the table rows. -/
theorem sortDetectedDesc_perm (l : List FraudIndicatorRow) :
    List.Perm (sortDetectedDesc l) l := by
  induction l with
  | nil => exact List.Perm.refl _
  | cons x xs ih =>
    exact (insertDetectedDesc_perm x (sortDetectedDesc xs)).trans (ih.cons x)

/-- Two or more recent high rows make check 4 fire and re-surface the
query result. -/
theorem check4_fires (db : DB) (now : Nat) (cid : String) (st : CheckState)
    (h : 2 ≤ (existing_indicators db now cid).length) :
    check4 db now cid st
      = ⟨true, "high", st.indicators ++ (existing_indicators db now cid).map resurface⟩ := by
  unfold check4
  rw [if_pos h]

/-- The LIMIT 3 capped length is at least 2 exactly when the full query
result has at least 2 rows. -/
theorem existing_indicators_two_le (db : DB) (now : Nat) (cid : String) :
    2 ≤ (existing_indicators db now cid).length ↔
      2 ≤ (db.fraud_indicators.filter (highRecent cid now)).length := by
  unfold existing_indicators
  rw [List.length_take,
    (sortDetectedDesc_perm (db.fraud_indicators.filter (highRecent cid now))).length_eq]
  rw [le_inf_iff]
  simp

/-- C5, amended.  Two or more high-severity indicators logged for the
customer inside the trailing 7 days force the recommendation to REJECT,
and the at most 3 most recent of them (the `LIMIT 3` of line 439) are
re-surfaced in the returned list; when the window holds at most 3 such
rows, every one of them is re-surfaced. -/
theorem history_pattern_rejects (db : DB) (now : Nat) (cid pid : String) (amount : ℚ)
    (p : Pension)
    (hfind : db.pensions.find? (fun p => decide (p.pension_id = pid ∧ p.customer_id = cid))
      = some p)
    (hE : p.monthly_amount ≠ 0)
    (h2 : 2 ≤ (db.fraud_indicators.filter (highRecent cid now)).length) :
    ∃ res db1, check_fraud_internal db now cid pid amount = .ok (res, db1) ∧
      res.is_fraudulent = true ∧
      res.recommendation = "REJECT" ∧
      (∀ r_ ∈ existing_indicators db now cid, resurface r_ ∈ res.fraud_indicators) ∧
      ((db.fraud_indicators.filter (highRecent cid now)).length ≤ 3 →
        ∀ r_ ∈ db.fraud_indicators.filter (highRecent cid now),
          resurface r_ ∈ res.fraud_indicators) := by
  have h2' : 2 ≤ (existing_indicators db now cid).length :=
    (existing_indicators_two_le db now cid).mpr h2
  have hch : checkChain db now cid amount p.monthly_amount
      = ⟨true, "high",
          (check3 db now cid (check2 amount
            (check1 amount p.monthly_amount ⟨false, "low", []⟩))).indicators ++
          (existing_indicators db now cid).map resurface⟩ := by
    unfold checkChain
    rw [check4_fires db now cid _ h2']
  have hmem : ∀ r_ ∈ existing_indicators db now cid,
      resurface r_ ∈ (checkChain db now cid amount p.monthly_amount).indicators := by
    intro r_ hr
    rw [hch]
    exact List.mem_append_right _ (List.mem_map_of_mem resurface hr)
  refine ⟨_, _, check_fraud_found db now cid pid amount p hfind hE, ?_, ?_, hmem, ?_⟩
  · rw [hch]
    rfl
  · dsimp only [verdictOf]
    rw [if_pos (by rw [hch])]
  · intro hle r_ hr
    apply hmem
    unfold existing_indicators
    rw [List.take_of_length_le]
    · exact (sortDetectedDesc_perm _).mem_iff.mpr hr
    · rw [(sortDetectedDesc_perm _).length_eq]
      exact hle

/-- Database with four recent high-severity indicator rows for C001. -/
def dbHist : DB :=
  ⟨[⟨"C001", "John Doe", "ACC1001"⟩],
   [⟨"P001", "C001", "Government Pension", 2500, "active", "ACC1001"⟩],
   [],
   [⟨"C001", "marker_a", "a", "high", 10⟩, ⟨"C001", "marker_b", "b", "high", 20⟩,
    ⟨"C001", "marker_c", "c", "high", 30⟩, ⟨"C001", "marker_d", "d", "high", 40⟩],
   []⟩

/-- Counterexample to C5 as stated: with four high-severity rows logged
inside the window, the oldest one is cut off by the LIMIT 3 of the
query, so not every such logged indicator is re-surfaced. -/
theorem history_pattern_rejects_counterexample :
    (dbHist.fraud_indicators.filter (highRecent "C001" 1000)).length = 4 ∧
    ((check_fraud_internal dbHist 1000 "C001" "P001" 2500).toOption.iget.1).recommendation
      = "REJECT" ∧
    (⟨"C001", "marker_a", "a", "high", 10⟩ : FraudIndicatorRow)
      ∈ dbHist.fraud_indicators.filter (highRecent "C001" 1000) ∧
    resurface ⟨"C001", "marker_a", "a", "high", 10⟩
      ∉ ((check_fraud_internal dbHist 1000 "C001" "P001" 2500).toOption.iget.1).fraud_indicators :=
  ⟨by decide, by decide, by decide, by decide⟩

/-- Witness for the amended C5: with exactly two recent high rows both
are re-surfaced and the check rejects. -/
def dbHist2 : DB :=
  ⟨[⟨"C001", "John Doe", "ACC1001"⟩],
   [⟨"P001", "C001", "Government Pension", 2500, "active", "ACC1001"⟩],
   [],
   [⟨"C001", "marker_a", "a", "high", 10⟩, ⟨"C001", "marker_b", "b", "high", 20⟩],
   []⟩

theorem history_pattern_rejects_witness :
    ∃ res db1, check_fraud_internal dbHist2 1000 "C001" "P001" 2500 = .ok (res, db1) ∧
      res.is_fraudulent = true ∧
      res.recommendation = "REJECT" ∧
      (∀ r_ ∈ existing_indicators dbHist2 1000 "C001", resurface r_ ∈ res.fraud_indicators) ∧
      ((dbHist2.fraud_indicators.filter (highRecent "C001" 1000)).length ≤ 3 →
        ∀ r_ ∈ dbHist2.fraud_indicators.filter (highRecent "C001" 1000),
          resurface r_ ∈ res.fraud_indicators) :=
  history_pattern_rejects dbHist2 1000 "C001" "P001" 2500
    ⟨"P001", "C001", "Government Pension", 2500, "active", "ACC1001"⟩
    (by decide) (by decide) (by decide)

/-! ### C2: the single-active-schedule invariant -/

/-- The invariant of spec section 3: at most one active
`scheduled_deposits` row per (customer, pension) pair. -/
def SchedInvariant (db : DB) : Prop :=
  ∀ cid pid, db.scheduled_deposits.countP (activeP cid pid) ≤ 1

/-- The in-place update of lines 621-625 touches neither the customer,
the pension nor the status of a row, so activity predicates see through it. -/
theorem activeP_update (c p : String) (amount : ℚ) (frequency : String) (nd : Nat)
    (sid : String) (x : Schedule) :
    activeP c p (if x.schedule_id = sid then
        { x with amount := amount, frequency := frequency, next_deposit_date := nd }
      else x) = activeP c p x := by
  split <;> rfl

/-- The UPDATE branch of the upsert keeps every pair count unchanged. -/
theorem countP_map_update (l : List Schedule) (c p : String) (amount : ℚ)
    (frequency : String) (nd : Nat) (sid : String) :
    (l.map (fun x => if x.schedule_id = sid then
        { x with amount := amount, frequency := frequency, next_deposit_date := nd }
      else x)).countP (activeP c p) = l.countP (activeP c p) := by
  rw [List.countP_map]
  apply List.countP_congr
  intro x _
  show activeP c p (if x.schedule_id = sid then
      { x with amount := amount, frequency := frequency, next_deposit_date := nd }
    else x) = true ↔ activeP c p x = true
  rw [activeP_update c p amount frequency nd sid x]

/-- A failed active lookup means a zero active count for the pair. -/
theorem countP_zero_of_findActive_none (db : DB) (cid pid : String)
    (h : findActive db cid pid = none) :
    db.scheduled_deposits.countP (activeP cid pid) = 0 := by
  rw [List.countP_eq_zero]
  intro a ha
  exact List.find?_eq_none.mp h a ha

/-- A successful active lookup: the row is in the table and active. -/
theorem findActive_some_mem (db : DB) (cid pid : String) (es : Schedule)
    (h : findActive db cid pid = some es) :
    es ∈ db.scheduled_deposits ∧ activeP cid pid es = true :=
  ⟨List.mem_of_find?_eq_some h, List.find?_some h⟩

/-- The checked scheduling body preserves the invariant. -/
theorem sched_after_resolve_invariant (db : DB) (now : Nat) (cid pid : String)
    (amt : ℚ) (frequency freshSid freshTid : String) (fail : Option (Nat × String))
    (r : SchedResult) (db' : DB)
    (h : sched_after_resolve db now cid pid amt frequency freshSid freshTid fail
      = .ok (r, db'))
    (hinv : SchedInvariant db) : SchedInvariant db' := by
  obtain ⟨fc, db1, hc, hor⟩ :=
    sched_after_resolve_cases db now cid pid amt frequency freshSid freshTid fail r db' h
  obtain ⟨-, -, -, hsd, -⟩ := check_fraud_tables db now cid pid amt fc db1 hc
  have hinv1 : SchedInvariant db1 := by
    intro c p
    rw [hsd]
    exact hinv c p
  rcases hor with rfl | rfl
  · exact hinv1
  · intro c p
    dsimp only
    rcases hfa : findActive db1 cid pid with _ | es
    · unfold upsertSchedule
      dsimp only
      rw [List.countP_append]
      by_cases hcp : c = cid ∧ p = pid
      · obtain ⟨rfl, rfl⟩ := hcp
        rw [countP_zero_of_findActive_none db1 c p hfa]
        simp only [List.countP_cons, List.countP_nil]
        split <;> simp
      · have hrow : activeP c p
            (⟨freshSid, cid, pid, amt, frequency, nextDeposit now frequency, "active"⟩ :
              Schedule) = false := by
          unfold activeP
          simp only [decide_eq_false_iff_not]
          rintro ⟨h1, h2, -⟩
          exact hcp ⟨h1.symm, h2.symm⟩
        simp only [List.countP_cons, List.countP_nil, hrow]
        simpa using hinv1 c p
    · unfold upsertSchedule
      dsimp only
      rw [countP_map_update]
      exact hinv1 c p

/-- The top-level match of the scheduler on two given optional
arguments reduces to the checked body. -/
theorem schedule_some_some (db : DB) (now : Nat) (cid pid : String) (amt : ℚ)
    (frequency freshSid freshTid : String) (fail : Option (Nat × String)) :
    schedule_recurring_deposit_internal db now cid (some pid) (some amt) frequency
        freshSid freshTid fail
      = sched_after_resolve db now cid pid amt frequency freshSid freshTid fail := rfl

/-- Two successful checked scheduling calls for the same pair leave
exactly one active row, carrying the amount and frequency of the second
call. -/
theorem sched_twice_one_active (db : DB) (t1 t2 : Nat) (cid pid : String)
    (a1 a2 : ℚ) (fr1 fr2 s1 s2 x1 x2 : String) (fail1 fail2 : Option (Nat × String))
    (r1 r2 : SchedResult) (db1 db2 : DB)
    (hinv : SchedInvariant db)
    (h1 : sched_after_resolve db t1 cid pid a1 fr1 s1 x1 fail1 = .ok (r1, db1))
    (hs1 : r1.success = true)
    (h2 : sched_after_resolve db1 t2 cid pid a2 fr2 s2 x2 fail2 = .ok (r2, db2))
    (hs2 : r2.success = true) :
    (db2.scheduled_deposits.filter (activeP cid pid)).length = 1 ∧
    ∀ s ∈ db2.scheduled_deposits.filter (activeP cid pid),
      s.amount = a2 ∧ s.frequency = fr2 := by
  obtain ⟨fc1, hc1, hnf1, hshape1, -⟩ :=
    sched_after_resolve_success db t1 cid pid a1 fr1 s1 x1 fail1 r1 db1 h1 hs1
  have hcount1 : db1.scheduled_deposits.countP (activeP cid pid) = 1 := by
    rw [hshape1]
    dsimp only
    rcases hfa : findActive db cid pid with _ | es
    · unfold upsertSchedule
      dsimp only
      rw [List.countP_append, countP_zero_of_findActive_none db cid pid hfa]
      simp [List.countP_cons, List.countP_nil, activeP]
    · unfold upsertSchedule
      dsimp only
      rw [countP_map_update]
      have hmem := findActive_some_mem db cid pid es hfa
      have hpos : 0 < db.scheduled_deposits.countP (activeP cid pid) :=
        List.countP_pos_iff.mpr ⟨es, hmem.1, hmem.2⟩
      have hle := hinv cid pid
      omega
  have hlen1 : (db1.scheduled_deposits.filter (activeP cid pid)).length = 1 := by
    rw [← List.countP_eq_length_filter]
    exact hcount1
  obtain ⟨a, ha⟩ := List.length_eq_one.mp hlen1
  obtain ⟨fc2, hc2, hnf2, hshape2, -⟩ :=
    sched_after_resolve_success db1 t2 cid pid a2 fr2 s2 x2 fail2 r2 db2 h2 hs2
  have hfa2 : findActive db1 cid pid = some a := by
    have hmem : a ∈ db1.scheduled_deposits.filter (activeP cid pid) := by
      rw [ha]
      exact List.mem_singleton_self a
    have hmem' := List.mem_filter.mp hmem
    rcases hfa2 : findActive db1 cid pid with _ | es2
    · exfalso
      have h0 := countP_zero_of_findActive_none db1 cid pid hfa2
      rw [h0] at hcount1
      exact one_ne_zero hcount1.symm
    · have hes2 := findActive_some_mem db1 cid pid es2 hfa2
      have hes2f : es2 ∈ db1.scheduled_deposits.filter (activeP cid pid) :=
        List.mem_filter.mpr ⟨hes2.1, hes2.2⟩
      rw [ha] at hes2f
      rw [List.mem_singleton.mp hes2f]
  rw [hshape2]
  dsimp only
  rw [hfa2]
  unfold upsertSchedule
  dsimp only
  constructor
  · rw [← List.countP_eq_length_filter, countP_map_update]
    exact hcount1
  · intro s hs
    obtain ⟨hm, hp⟩ := List.mem_filter.mp hs
    obtain ⟨x, hx, hfx⟩ := List.mem_map.mp hm
    rw [← hfx] at hp
    rw [activeP_update] at hp
    have hxf : x ∈ db1.scheduled_deposits.filter (activeP cid pid) :=
      List.mem_filter.mpr ⟨hx, hp⟩
    rw [ha] at hxf
    have hxa : x = a := List.mem_singleton.mp hxf
    rw [← hfx, hxa, if_pos rfl]
    exact ⟨rfl, rfl⟩

/-- C2.  First conjunct: every scheduler call preserves the invariant
that at most one active schedule row exists per (customer, pension)
pair.  Second conjunct: on a successful call with explicit arguments,
an existing active row is updated in place keeping its schedule id and
the table size, otherwise exactly one new active row is appended.
Third conjunct: two successful calls for the same pair leave exactly
one active row carrying the amount and frequency of the second call. -/
theorem single_active_schedule :
    (∀ (db : DB) (now : Nat) (cid : String) (pid? : Option String) (amt? : Option ℚ)
        (frequency freshSid freshTid : String) (fail : Option (Nat × String))
        (r : SchedResult) (db' : DB),
      schedule_recurring_deposit_internal db now cid pid? amt? frequency
        freshSid freshTid fail = .ok (r, db') →
      SchedInvariant db → SchedInvariant db') ∧
    (∀ (db : DB) (now : Nat) (cid pid : String) (amt : ℚ)
        (frequency freshSid freshTid : String) (fail : Option (Nat × String))
        (r : SchedResult) (db' : DB),
      schedule_recurring_deposit_internal db now cid (some pid) (some amt) frequency
        freshSid freshTid fail = .ok (r, db') →
      r.success = true →
      ((∃ es, findActive db cid pid = some es ∧ r.action = some "updated" ∧
          r.schedule_id = some es.schedule_id ∧
          db'.scheduled_deposits.length = db.scheduled_deposits.length) ∨
        (findActive db cid pid = none ∧ r.action = some "created" ∧
          r.schedule_id = some freshSid ∧
          db'.scheduled_deposits.length = db.scheduled_deposits.length + 1))) ∧
    (∀ (db : DB) (t1 t2 : Nat) (cid pid : String) (a1 a2 : ℚ)
        (fr1 fr2 s1 s2 x1 x2 : String) (fail1 fail2 : Option (Nat × String))
        (r1 r2 : SchedResult) (db1 db2 : DB),
      SchedInvariant db →
      schedule_recurring_deposit_internal db t1 cid (some pid) (some a1) fr1 s1 x1 fail1
        = .ok (r1, db1) → r1.success = true →
      schedule_recurring_deposit_internal db1 t2 cid (some pid) (some a2) fr2 s2 x2 fail2
        = .ok (r2, db2) → r2.success = true →
      (db2.scheduled_deposits.filter (activeP cid pid)).length = 1 ∧
      ∀ s ∈ db2.scheduled_deposits.filter (activeP cid pid),
        s.amount = a2 ∧ s.frequency = fr2) := by
  refine ⟨?_, ?_, ?_⟩
  · intro db now cid pid? amt? frequency freshSid freshTid fail r db' h hinv
    unfold schedule_recurring_deposit_internal at h
    split at h
    · exact sched_after_resolve_invariant db now cid _ _ frequency freshSid freshTid
        fail r db' h hinv
    · dsimp only at h
      split at h
      · exact sched_after_resolve_invariant db now cid _ _ frequency freshSid freshTid
          fail r db' h hinv
      · simp only [Except.ok.injEq, Prod.mk.injEq] at h
        rw [← h.2]
        exact hinv
  · intro db now cid pid amt frequency freshSid freshTid fail r db' h hs
    rw [schedule_some_some] at h
    obtain ⟨fc, hc, hnf, hshape, hr⟩ :=
      sched_after_resolve_success db now cid pid amt frequency freshSid freshTid
        fail r db' h hs
    rcases hfa : findActive db cid pid with _ | es
    · right
      rw [hfa] at hshape hr
      unfold upsertSchedule at hshape hr
      refine ⟨rfl, ?_, ?_, ?_⟩
      · rw [hr]
      · rw [hr]
      · rw [hshape]
        dsimp only
        rw [List.length_append]
        rfl
    · left
      rw [hfa] at hshape hr
      unfold upsertSchedule at hshape hr
      refine ⟨es, rfl, ?_, ?_, ?_⟩
      · rw [hr]
      · rw [hr]
      · rw [hshape]
        dsimp only
        rw [List.length_map]
  · intro db t1 t2 cid pid a1 a2 fr1 fr2 s1 s2 x1 x2 fail1 fail2 r1 r2 db1 db2
      hinv h1 hs1 h2 hs2
    rw [schedule_some_some] at h1 h2
    exact sched_twice_one_active db t1 t2 cid pid a1 a2 fr1 fr2 s1 s2 x1 x2
      fail1 fail2 r1 r2 db1 db2 hinv h1 hs1 h2 hs2

/-- The seeded database has no schedule rows, so the invariant holds. -/
theorem dbSeed_invariant : SchedInvariant dbSeed := by
  intro c p
  simp [dbSeed]

/-- First scheduling call of the C2 witness run. -/
def c2r1 : SchedResult :=
  (schedule_recurring_deposit_internal dbSeed 10 "C001" (some "P001") (some 2500)
    "monthly" "S1" "T1" none).toOption.iget.1

/-- Database after the first scheduling call of the C2 witness run. -/
def c2db1 : DB :=
  (schedule_recurring_deposit_internal dbSeed 10 "C001" (some "P001") (some 2500)
    "monthly" "S1" "T1" none).toOption.iget.2

/-- Second scheduling call of the C2 witness run. -/
def c2r2 : SchedResult :=
  (schedule_recurring_deposit_internal c2db1 20 "C001" (some "P001") (some 2600)
    "weekly" "S2" "T2" none).toOption.iget.1

/-- Database after the second scheduling call of the C2 witness run. -/
def c2db2 : DB :=
  (schedule_recurring_deposit_internal c2db1 20 "C001" (some "P001") (some 2600)
    "weekly" "S2" "T2" none).toOption.iget.2

/-- Witness for C2 at concrete inputs: create then update. -/
theorem single_active_schedule_witness :
    SchedInvariant c2db1 ∧
    ((∃ es, findActive dbSeed "C001" "P001" = some es ∧ c2r1.action = some "updated" ∧
        c2r1.schedule_id = some es.schedule_id ∧
        c2db1.scheduled_deposits.length = dbSeed.scheduled_deposits.length) ∨
      (findActive dbSeed "C001" "P001" = none ∧ c2r1.action = some "created" ∧
        c2r1.schedule_id = some "S1" ∧
        c2db1.scheduled_deposits.length = dbSeed.scheduled_deposits.length + 1)) ∧
    ((c2db2.scheduled_deposits.filter (activeP "C001" "P001")).length = 1 ∧
      ∀ s ∈ c2db2.scheduled_deposits.filter (activeP "C001" "P001"),
        s.amount = 2600 ∧ s.frequency = "weekly") :=
  ⟨single_active_schedule.1 dbSeed 10 "C001" (some "P001") (some 2500)
      "monthly" "S1" "T1" none c2r1 c2db1 (by rfl) dbSeed_invariant,
   single_active_schedule.2.1 dbSeed 10 "C001" "P001" 2500
      "monthly" "S1" "T1" none c2r1 c2db1 (by rfl) (by decide),
   single_active_schedule.2.2 dbSeed 10 20 "C001" "P001" 2500 2600
      "monthly" "weekly" "S1" "S2" "T1" "T2" none none c2r1 c2r2 c2db1 c2db2
      dbSeed_invariant (by rfl) (by decide) (by rfl) (by decide)⟩

/-! ### C8: connection discipline -/

/-- C8, amended.  The connection handed to a tool body by
`get_db_connection` is always closed before the call returns, on success
and failure alike; but the connection `init_database` opens is closed
only when the customers table was empty or missing.  Hence every
connection of an invocation is closed exactly when the database did not
already hold data; an invocation on a seeded database leaves the
`init_database` connection open. -/
theorem connection_discipline :
    ∀ c, (tool_invocation_conns c).opened = (init_database_conns c).opened + 1 ∧
      (tool_invocation_conns c).closed = (init_database_conns c).closed + 1 ∧
      ((tool_invocation_conns c).closed = (tool_invocation_conns c).opened ↔
        dataPresent c = false) := by
  intro c
  rcases c with _ | n
  · exact ⟨rfl, rfl, by simp [tool_invocation_conns, init_database_conns, dataPresent]⟩
  · rcases n with _ | m
    · exact ⟨rfl, rfl, by simp [tool_invocation_conns, init_database_conns, dataPresent]⟩
    · exact ⟨rfl, rfl, by simp [tool_invocation_conns, init_database_conns, dataPresent]⟩

/-- Counterexample to C8 as stated: with three customer rows already
present, an invocation opens two connections and closes only one, so
not every connection opened during the call is closed. -/
theorem connection_discipline_counterexample :
    (tool_invocation_conns (some 3)).opened = 2 ∧
    (tool_invocation_conns (some 3)).closed = 1 ∧
    ¬ (tool_invocation_conns (some 3)).closed = (tool_invocation_conns (some 3)).opened :=
  ⟨by decide, by decide, by decide⟩

/-! ### C10: the velocity check counts scheduled rows -/

/-- More than three recent transactions make check 3 fire. -/
theorem check3_fires (db : DB) (now : Nat) (cid : String) (st : CheckState)
    (h : 3 < recent_count db now cid) :
    check3 db now cid st = ⟨true, "high", st.indicators ++ [velocityInd]⟩ := by
  unfold check3
  rw [if_pos h]

/-- A successful scheduler call appends exactly one transaction row,
dated now with status scheduled, and leaves the pension table alone. -/
theorem sched_success_transactions (db : DB) (now : Nat) (cid pid : String) (amt : ℚ)
    (frequency freshSid freshTid : String) (fail : Option (Nat × String))
    (r : SchedResult) (db' : DB)
    (h : schedule_recurring_deposit_internal db now cid (some pid) (some amt) frequency
      freshSid freshTid fail = .ok (r, db'))
    (hs : r.success = true) :
    db'.transactions = db.transactions ++
      [scheduledTxn freshTid cid pid amt now (nextDeposit now frequency)] ∧
    db'.pensions = db.pensions := by
  rw [schedule_some_some] at h
  obtain ⟨fc, -, -, hshape, -⟩ :=
    sched_after_resolve_success db now cid pid amt frequency freshSid freshTid
      fail r db' h hs
  rw [hshape]
  exact ⟨rfl, rfl⟩

/-- C10.  The velocity query counts every `transactions` row for the
customer inside the trailing 24 hours, with no condition on pension id,
type or status; each successful scheduler call appends one such row
dated now, so after four successful calls inside the window the next
fraud check for the customer rejects with the velocity indicator. -/
theorem four_schedules_velocity_reject (db : DB) (t1 t2 t3 t4 t5 : Nat) (cid : String)
    (p1 p2 p3 p4 : String) (a1 a2 a3 a4 : ℚ) (fr1 fr2 fr3 fr4 : String)
    (s1 s2 s3 s4 x1 x2 x3 x4 : String)
    (f1 f2 f3 f4 : Option (Nat × String))
    (r1 r2 r3 r4 : SchedResult) (db1 db2 db3 db4 : DB)
    (pid5 : String) (amt5 : ℚ) (p : Pension)
    (h1 : schedule_recurring_deposit_internal db t1 cid (some p1) (some a1) fr1 s1 x1 f1
      = .ok (r1, db1)) (hs1 : r1.success = true)
    (h2 : schedule_recurring_deposit_internal db1 t2 cid (some p2) (some a2) fr2 s2 x2 f2
      = .ok (r2, db2)) (hs2 : r2.success = true)
    (h3 : schedule_recurring_deposit_internal db2 t3 cid (some p3) (some a3) fr3 s3 x3 f3
      = .ok (r3, db3)) (hs3 : r3.success = true)
    (h4 : schedule_recurring_deposit_internal db3 t4 cid (some p4) (some a4) fr4 s4 x4 f4
      = .ok (r4, db4)) (hs4 : r4.success = true)
    (ht1 : t5 - oneDay < t1) (ht2 : t5 - oneDay < t2)
    (ht3 : t5 - oneDay < t3) (ht4 : t5 - oneDay < t4)
    (hfind : db4.pensions.find?
      (fun q => decide (q.pension_id = pid5 ∧ q.customer_id = cid)) = some p)
    (hE : p.monthly_amount ≠ 0) :
    3 < recent_count db4 t5 cid ∧
    ∃ res db5, check_fraud_internal db4 t5 cid pid5 amt5 = .ok (res, db5) ∧
      res.is_fraudulent = true ∧
      res.recommendation = "REJECT" ∧
      velocityInd ∈ res.fraud_indicators := by
  obtain ⟨e1, -⟩ := sched_success_transactions db t1 cid p1 a1 fr1 s1 x1 f1 r1 db1 h1 hs1
  obtain ⟨e2, -⟩ := sched_success_transactions db1 t2 cid p2 a2 fr2 s2 x2 f2 r2 db2 h2 hs2
  obtain ⟨e3, -⟩ := sched_success_transactions db2 t3 cid p3 a3 fr3 s3 x3 f3 r3 db3 h3 hs3
  obtain ⟨e4, -⟩ := sched_success_transactions db3 t4 cid p4 a4 fr4 s4 x4 f4 r4 db4 h4 hs4
  have hvel : 3 < recent_count db4 t5 cid := by
    unfold recent_count
    rw [e4, e3, e2, e1]
    simp only [List.countP_append, List.countP_cons, List.countP_nil]
    simp [txnRecent, scheduledTxn, ht1, ht2, ht3, ht4]
  refine ⟨hvel, ?_⟩
  have h3f : check3 db4 t5 cid (check2 amt5 (check1 amt5 p.monthly_amount
      ⟨false, "low", []⟩))
      = ⟨true, "high", (check2 amt5 (check1 amt5 p.monthly_amount
          ⟨false, "low", []⟩)).indicators ++ [velocityInd]⟩ :=
    check3_fires db4 t5 cid _ hvel
  have hfr : (checkChain db4 t5 cid amt5 p.monthly_amount).is_fraudulent = true := by
    unfold checkChain
    apply check4_mono_fraud
    rw [h3f]
  have hmem : velocityInd ∈ (checkChain db4 t5 cid amt5 p.monthly_amount).indicators := by
    unfold checkChain
    apply check4_mono_mem
    rw [h3f]
    simp
  refine ⟨_, _, check_fraud_found db4 t5 cid pid5 amt5 p hfind hE, hfr, ?_, hmem⟩
  dsimp only [verdictOf]
  rw [if_pos hfr]

/-- Results of the four successful scheduling calls of the C10 witness. -/
def c10r1 : SchedResult :=
  (schedule_recurring_deposit_internal dbSeed 172800 "C001" (some "P001") (some 2500)
    "monthly" "SA" "TA" none).toOption.iget.1

def c10db1 : DB :=
  (schedule_recurring_deposit_internal dbSeed 172800 "C001" (some "P001") (some 2500)
    "monthly" "SA" "TA" none).toOption.iget.2

def c10r2 : SchedResult :=
  (schedule_recurring_deposit_internal c10db1 172800 "C001" (some "P001") (some 2500)
    "monthly" "SB" "TB" none).toOption.iget.1

def c10db2 : DB :=
  (schedule_recurring_deposit_internal c10db1 172800 "C001" (some "P001") (some 2500)
    "monthly" "SB" "TB" none).toOption.iget.2

def c10r3 : SchedResult :=
  (schedule_recurring_deposit_internal c10db2 172800 "C001" (some "P001") (some 2500)
    "monthly" "SC" "TC" none).toOption.iget.1

def c10db3 : DB :=
  (schedule_recurring_deposit_internal c10db2 172800 "C001" (some "P001") (some 2500)
    "monthly" "SC" "TC" none).toOption.iget.2

def c10r4 : SchedResult :=
  (schedule_recurring_deposit_internal c10db3 172800 "C001" (some "P001") (some 2500)
    "monthly" "SD" "TD" none).toOption.iget.1

def c10db4 : DB :=
  (schedule_recurring_deposit_internal c10db3 172800 "C001" (some "P001") (some 2500)
    "monthly" "SD" "TD" none).toOption.iget.2

/-- Witness for C10: four successful scheduling calls inside the same
24-hour window, then a velocity rejection on the fifth check. -/
theorem four_schedules_velocity_reject_witness :
    3 < recent_count c10db4 172800 "C001" ∧
    ∃ res db5, check_fraud_internal c10db4 172800 "C001" "P001" 2500 = .ok (res, db5) ∧
      res.is_fraudulent = true ∧
      res.recommendation = "REJECT" ∧
      velocityInd ∈ res.fraud_indicators :=
  four_schedules_velocity_reject dbSeed 172800 172800 172800 172800 172800 "C001"
    "P001" "P001" "P001" "P001" 2500 2500 2500 2500
    "monthly" "monthly" "monthly" "monthly"
    "SA" "SB" "SC" "SD" "TA" "TB" "TC" "TD"
    none none none none
    c10r1 c10r2 c10r3 c10r4 c10db1 c10db2 c10db3 c10db4
    "P001" 2500 ⟨"P001", "C001", "Government Pension", 2500, "active", "ACC1001"⟩
    (by rfl) (by decide) (by rfl) (by decide) (by rfl) (by decide) (by rfl) (by decide)
    (by decide) (by decide) (by decide) (by decide) (by decide) (by decide)

end FinanceTools
